import Mathlib

/-!
Verification development for `chroma_db_viewer.py`, a Streamlit viewer for
Chroma DB collections.  The Python program is shallowly embedded: Python
strings are modelled as `List Char` where character-level processing matters
(URL parsing, ordering of cell values) and as `String` elsewhere; exceptions
are modelled with `Except String`; the remote Chroma store, the pandas
DataFrame/Styler pipeline and the Streamlit output surface are modelled at
their interface boundary.
-/

/-! ## Character-list helpers (Python `str` operations) -/

/-- Python `s.partition(c)` on a character list: the part before the first
occurrence of `c` and, when `c` occurs, the part after it. -/
def splitFirst (c : Char) : List Char → List Char × Option (List Char)
  | [] => ([], none)
  | x :: xs =>
    if x = c then
      ([], some xs)
    else
      let r := splitFirst c xs
      (x :: r.1, r.2)

/-- Python `s.rpartition(c)[2]`: the part after the last occurrence of `c`,
or the whole list when `c` does not occur. -/
def afterLast (c : Char) (l : List Char) : List Char :=
  match splitFirst c l.reverse with
  | (_, none) => l
  | (b, some _) => b.reverse

/-- Value of a decimal digit string (used below only on all-digit lists). -/
def natOfDigits (l : List Char) : Nat :=
  l.foldl (fun a c => a * 10 + (c.toNat - 48)) 0

/-- Python `int(s, 10)` restricted to an optional sign followed by decimal
digits; `none` models the `ValueError` raised on any other input. -/
def pyIntOfChars : List Char → Option Int
  | '-' :: ds => if !ds.isEmpty && ds.all Char.isDigit then some (-(natOfDigits ds : Int)) else none
  | '+' :: ds => if !ds.isEmpty && ds.all Char.isDigit then some ((natOfDigits ds : Int)) else none
  | ds => if !ds.isEmpty && ds.all Char.isDigit then some ((natOfDigits ds : Int)) else none

/-! ## `urllib.parse` model

`parse_database_url` (line 50) simply calls `urllib.parse.urlparse`; the
program then reads the `hostname` and `port` properties of the result
(lines 120-121 and 132-133).  The definitions below embed the CPython
`urllib.parse` semantics of exactly those pieces: extraction of the netloc
by `urlsplit`, and the `hostname` / `port` properties of the split result
(`_hostinfo`, lowercasing, the `ValueError` on a non-numeric port and the
`ValueError` on a port outside 0-65535). -/

/-- CPython `scheme_chars`: characters allowed in a URL scheme. -/
def schemeChars : List Char :=
  ("abcdefghijklmnopqrstuvwxyzABCDEFGHIJKLMNOPQRSTUVWXYZ0123456789+-." : String).toList

/-- CPython `urlsplit` first removes tab, carriage-return and newline
characters (`_UNSAFE_URL_BYTES_TO_REMOVE`). -/
def removeTabsAndNewlines (l : List Char) : List Char :=
  l.filter (fun c => !(c == '\t' || c == '\r' || c == '\n'))

/-- Scheme splitting of `urlsplit`: when the part before the first `:` is a
nonempty run of scheme characters starting with an ASCII letter, the scheme
is stripped; otherwise the URL is left untouched. -/
def stripScheme (url : List Char) : List Char :=
  match splitFirst ':' url with
  | (before, some after) =>
    match before with
    | [] => url
    | b :: rest =>
      if b.isAlpha && (b :: rest).all (fun c => schemeChars.contains c) then after else url
  | (_, none) => url

/-- CPython `_splitnetloc`: the netloc extends to the first `/`, `?` or `#`. -/
def splitNetloc (rest : List Char) : List Char :=
  rest.takeWhile (fun c => !(c == '/' || c == '?' || c == '#'))

/-- The result of `urlparse` as used by the program: only the netloc matters
for the `hostname` and `port` properties, so only it is modelled. -/
structure ParseResult where
  netloc : List Char
deriving DecidableEq

/-- Embedding of `parse_database_url` (line 50): `urlparse` applied to the
user-supplied URL.  `urlsplit` raises `ValueError "Invalid IPv6 URL"` when
exactly one of `[`, `]` occurs in the netloc; this is the only exception the
split itself can raise on the modelled path. -/
def parse_database_url (database_url : String) : Except String ParseResult :=
  let url := removeTabsAndNewlines database_url.toList
  let rest := stripScheme url
  match rest with
  | '/' :: '/' :: tail =>
    let netloc := splitNetloc tail
    if (netloc.contains '[' && !netloc.contains ']')
        || (netloc.contains ']' && !netloc.contains '[') then
      .error "Invalid IPv6 URL"
    else
      .ok ⟨netloc⟩
  | _ => .ok ⟨[]⟩

/-- CPython `SplitResult._hostinfo`: hostname text and optional port text of
a netloc (userinfo up to the last `@` is dropped, brackets delimit IPv6
hosts, an empty port text counts as absent). -/
def hostinfoOf (netloc : List Char) : List Char × Option (List Char) :=
  let hostinfo := afterLast '@' netloc
  match splitFirst '[' hostinfo with
  | (_, some bracketed) =>
    let r := splitFirst ']' bracketed
    let port := (splitFirst ':' (r.2.getD [])).2
    (r.1, match port with | some [] => none | p => p)
  | (_, none) =>
    let r := splitFirst ':' hostinfo
    (r.1, match r.2 with | some [] => none | p => p)

/-- CPython `SplitResult.hostname` property: `None` for an empty hostname,
otherwise the hostname lowercased. -/
def ParseResult.hostname (pr : ParseResult) : Option (List Char) :=
  let h := (hostinfoOf pr.netloc).1
  if h = [] then none else some (h.map Char.toLower)

/-- CPython `SplitResult.port` property: `None` when no port text is
present; otherwise the port text is cast with `int(port, 10)`, raising
`ValueError` when the cast fails or the value is outside 0-65535. -/
def ParseResult.port (pr : ParseResult) : Except String (Option Int) :=
  match (hostinfoOf pr.netloc).2 with
  | none => .ok none
  | some p =>
    match pyIntOfChars p with
    | none => .error ("Port could not be cast to integer value as \x27" ++ String.mk p ++ "\x27")
    | some n => if 0 ≤ n ∧ n ≤ 65535 then .ok (some n) else .error "Port out of range 0-65535"

/-! ## Tabular Presenter

`connect_and_list_collections` (lines 85-99) builds a `pd.DataFrame` with
the fixed columns `ids`, `embeddings`, `metadata`, `documents`, styles it
with `style_dataframe` (line 34: `df.style.highlight_max(axis=0, ...)`) and
renders it with `st.dataframe`.  pandas and Streamlit are external
collaborators, so the presenter is modelled at its interface boundary.

Cell values: ids and documents are strings (`List Char`), embeddings are
vectors of numbers (`List Int`), metadata entries are key-value mappings
(association lists of string pairs, `List MetaPair`). -/

/-- Modelled from the spec: a single key-value pair of a metadata mapping
(§3 RecordSet: "ordered sequence of key→value mapping"); the pandas code
holding the mapping values is not part of the repository. -/
structure MetaPair where
  key : List Char
  val : List Char
deriving DecidableEq

/-- Lexicographic view of a metadata pair, used to order metadata cells. -/
def MetaPair.toLexPair (p : MetaPair) : Lex (List Char × List Char) :=
  toLex (p.key, p.val)

/-- Modelled from the spec: the emphasis rule needs some total order on each
column's value type; for non-scalar columns the spec leaves the order
implementation-defined (§4.3, §9), so a lexicographic order is fixed here. -/
instance : LinearOrder MetaPair :=
  LinearOrder.lift' MetaPair.toLexPair (by
    intro a b h
    cases a
    cases b
    simpa [MetaPair.toLexPair, toLex, Prod.mk.injEq, MetaPair.mk.injEq] using h)

/-- The maximum of a column, `none` for an empty column (pandas `max` of an
empty column yields no highlightable value). -/
def colMax [LinearOrder α] : List α → Option α
  | [] => none
  | x :: xs => some (xs.foldl max x)

/-- Modelled from the spec: `Styler.highlight_max(axis=0)` marks, in each
column, the cell(s) equal to the column maximum (§3 RenderedTable, §4.3
emphasis rule).  `true` at position `i` means row `i` is emphasized. -/
def highlight_max [LinearOrder α] [DecidableEq α] (col : List α) : List Bool :=
  match colMax col with
  | none => []
  | some m => col.map (fun x => decide (x = m))

/-- The mapping returned by `collection.get()`: each of the four keys may be
absent (the program defends with `data.get(key, [])`, lines 79-82). -/
structure RecordMap where
  ids? : Option (List (List Char))
  embeddings? : Option (List (List Int))
  metadatas? : Option (List (List MetaPair))
  documents? : Option (List (List Char))
deriving DecidableEq

/-- The four aligned columns of a built DataFrame (§3 RecordSet). -/
structure RecordSet where
  ids : List (List Char)
  embeddings : List (List Int)
  metadata : List (List MetaPair)
  documents : List (List Char)
deriving DecidableEq

/-- The fixed column set of the DataFrame built on lines 85-92. -/
def dfColumns : List String :=
  ["ids", "embeddings", "metadata", "documents"]

/-- Modelled from the spec: `pd.DataFrame` over the four named lists
(lines 85-92) builds one row per index position across the aligned
sequences (§4.3); on sequences of differing lengths row construction fails
(pandas raises `ValueError`), which §3 requires to be a per-collection
graceful failure. -/
def mkDataFrame (ids : List (List Char)) (embeddings : List (List Int))
    (metadata : List (List MetaPair)) (documents : List (List Char)) :
    Except String RecordSet :=
  if ids.length = embeddings.length ∧ embeddings.length = metadata.length
      ∧ metadata.length = documents.length then
    .ok ⟨ids, embeddings, metadata, documents⟩
  else
    .error "ValueError: All arrays must be of the same length"

/-- A rendered table: the four columns, their names, and one emphasis mask
per column (§3 RenderedTable). -/
structure RenderedTable where
  colNames : List String
  ids : List (List Char)
  embeddings : List (List Int)
  metadata : List (List MetaPair)
  documents : List (List Char)
  idsMask : List Bool
  embeddingsMask : List Bool
  metadataMask : List Bool
  documentsMask : List Bool
deriving DecidableEq

/-- Embedding of `style_dataframe` (line 34) combined with the rendering
step of `st.dataframe` (line 99): the styled table carries, per column, the
`highlight_max` emphasis mask. -/
def style_dataframe (df : RecordSet) : RenderedTable :=
  ⟨dfColumns, df.ids, df.embeddings, df.metadata, df.documents,
    highlight_max df.ids, highlight_max df.embeddings,
    highlight_max df.metadata, highlight_max df.documents⟩

/-! ## Store Client Adapter

The `chromadb.HttpClient` is an external collaborator; it is modelled from
the spec at its interface (§4.2, §6): collection enumeration, per-collection
record retrieval and collection deletion, each of which can fail. -/

/-- A collection handle: its name and the outcome of `collection.get()`. -/
structure Collection where
  name : String
  fetchResult : Except String RecordMap

/-- Modelled from the spec: the remote store behind a client session
(§4.2).  `listError` / `deleteError` inject the remote-call failures whose
containment the orchestrator must provide; `colls` is the store state that
`delete_collection` mutates. -/
structure RemoteStore where
  colls : List Collection
  listError : Option String
  deleteError : String → Option String

/-- Modelled from the spec: `client.list_collections()` (§4.2) either fails
as a unit or returns the store's current collection handles. -/
def RemoteStore.list_collections (s : RemoteStore) : Except String (List Collection) :=
  match s.listError with
  | some e => .error e
  | none => .ok s.colls

/-- Modelled from the spec: `client.delete_collection(name)` (§4.2) either
fails or irreversibly removes the named collection from the store. -/
def RemoteStore.delete_collection (s : RemoteStore) (n : String) : Except String RemoteStore :=
  match s.deleteError n with
  | some e => .error e
  | none => .ok { s with colls := s.colls.eraseP (fun c => c.name == n) }

/-- Embedding of `create_client` (line 20): constructing `db.HttpClient`
performs no remote call itself (§4.2: failure manifests lazily on first
use), so the client is the store handle. -/
def create_client (host : String) (port : Int) (store : RemoteStore) : RemoteStore :=
  store

/-! ## Session Orchestrator -/

/-- One Streamlit output emitted by an action: a markdown heading, a
rendered collection table, or an `st.error` message. -/
inductive StOutput where
  | header (text : String)
  | table (collName : String) (t : RenderedTable)
  | errorMsg (text : String)
deriving DecidableEq

/-- The body of the per-collection part of the listing loop (lines 76-95):
extract the four fields with `data.get(key, [])`, build the DataFrame and
style it. -/
def presentCollection (rm : RecordMap) : Except String RenderedTable :=
  match mkDataFrame (rm.ids?.getD []) (rm.embeddings?.getD [])
      (rm.metadatas?.getD []) (rm.documents?.getD []) with
  | .error e => .error e
  | .ok df => .ok (style_dataframe df)

/-- The `for collection in collections` loop of lines 75-99, under the
`try` of line 72: any exception raised while handling one collection jumps
to the `except` of line 100, so outputs already emitted stay, a single
aggregate `st.error` is emitted, and the remaining collections are not
processed. -/
def listLoop : List Collection → List StOutput
  | [] => []
  | c :: rest =>
    match c.fetchResult with
    | .error e => [.errorMsg ("Error listing collections: " ++ e)]
    | .ok rm =>
      match presentCollection rm with
      | .error e => [.errorMsg ("Error listing collections: " ++ e)]
      | .ok t =>
        .header ("### Collection: **" ++ c.name ++ "**") :: .table c.name t :: listLoop rest

/-- Embedding of `connect_and_list_collections` (lines 62-101): one `try`
wraps both the enumeration call and the whole per-collection loop; the
`except` clause converts the first exception into a single
`st.error("Error listing collections: ...")`. -/
def connect_and_list_collections (client : RemoteStore) : List StOutput :=
  match client.list_collections with
  | .error e => [.errorMsg ("Error listing collections: " ++ e)]
  | .ok cs => listLoop cs

/-- The `st.error` text of the invalid-URL branches (lines 128 and 140). -/
def invalidURLMsg : String :=
  "Invalid URL. Please enter a valid database URL."

/-- The endpoint conditions shared by both branches (lines 119-123 and
131-135): parse the URL, read `hostname` and `port` (either property may
raise), then test `if host and port:` — Python truthiness, so a present
port equal to `0` fails the test exactly like an absent one. -/
def endpointOf (url : String) : Except String (Option (String × Int)) :=
  match parse_database_url url with
  | .error e => .error e
  | .ok pr =>
    match pr.port with
    | .error e => .error e
    | .ok p? =>
      match pr.hostname, p? with
      | some h, some p => .ok (if p ≠ 0 then some (String.mk h, p) else none)
      | _, _ => .ok none

/-- The connect branch (lines 118-128), given that the button was pressed
and the URL field is nonempty: resolve the endpoint (propagating any
`ValueError`), report the invalid-URL error, or emit the connecting header
followed by the listing outputs. -/
def connectBody (url : String) (store : RemoteStore) : Except String (List StOutput) :=
  match endpointOf url with
  | .error e => .error e
  | .ok none => .ok [.errorMsg invalidURLMsg]
  | .ok (some (h, p)) =>
    .ok (.header ("### Connecting to " ++ h ++ ":" ++ toString p)
      :: connect_and_list_collections (create_client h p store))

/-- The `for collection in client.list_collections(): client.delete_collection(...)`
loop of lines 137-138; no exception handler surrounds it, so the first
failure propagates. -/
def deleteLoop : RemoteStore → List Collection → Except String RemoteStore
  | s, [] => .ok s
  | s, c :: rest =>
    match s.delete_collection c.name with
    | .error e => .error e
    | .ok s2 => deleteLoop s2 rest

/-- The delete branch (lines 130-140), given that the button was pressed
and the URL field is nonempty.  On success it emits no output at all. -/
def deleteBody (url : String) (store : RemoteStore) :
    Except String (RemoteStore × List StOutput) :=
  match endpointOf url with
  | .error e => .error e
  | .ok none => .ok (store, [.errorMsg invalidURLMsg])
  | .ok (some (h, p)) =>
    match (create_client h p store).list_collections with
    | .error e => .error e
    | .ok cs =>
      match deleteLoop (create_client h p store) cs with
      | .error e => .error e
      | .ok s2 => .ok (s2, [])

/-- Embedding of `view_chroma_db` (lines 104-140): both branches are
guarded by their button and by the truthiness of the URL field (an empty
string is falsy); the final store state and the concatenated outputs are
returned, and an uncaught exception aborts the whole turn. -/
def view_chroma_db (connectButton deleteButton : Bool) (db_url : String)
    (store : RemoteStore) : Except String (RemoteStore × List StOutput) :=
  match (if connectButton ∧ db_url ≠ "" then connectBody db_url store else .ok []) with
  | .error e => .error e
  | .ok outs1 =>
    match (if deleteButton ∧ db_url ≠ "" then deleteBody db_url store else .ok (store, [])) with
    | .error e => .error e
    | .ok (store2, outs2) => .ok (store2, outs1 ++ outs2)

/-- The fetched mapping of an empty collection: all four keys present, all
sequences empty. -/
def rmNil : RecordMap := ⟨some [], some [], some [], some []⟩

/-- A store with three collections where the second collection's fetch
raises; enumeration itself succeeds. -/
def storeCx : RemoteStore :=
  ⟨[⟨"c1", .ok rmNil⟩, ⟨"c2", .error "boom"⟩, ⟨"c3", .ok rmNil⟩], none, fun _ => none⟩

/-- A healthy store with three empty collections A, B, C. -/
def storeABC : RemoteStore :=
  ⟨[⟨"A", .ok rmNil⟩, ⟨"B", .ok rmNil⟩, ⟨"C", .ok rmNil⟩], none, fun _ => none⟩

/-! ## Predicates and concrete inputs used by the claim statements -/

/-- Does this output render a table for the collection named `n`? -/
def isTableFor (o : StOutput) (n : String) : Bool :=
  match o with
  | .table m _ => m == n
  | _ => false

/-- Is this output a rendered collection table? -/
def isTable (o : StOutput) : Bool :=
  match o with
  | .table _ _ => true
  | _ => false

/-- Is this output an `st.error` message? -/
def isError (o : StOutput) : Bool :=
  match o with
  | .errorMsg _ => true
  | _ => false

/-- Well-formedness of a RecordSet (§3): all four sequences have length `n`. -/
def RecordSet.aligned (df : RecordSet) (n : Nat) : Prop :=
  df.ids.length = n ∧ df.embeddings.length = n ∧ df.metadata.length = n
    ∧ df.documents.length = n

/-- A store whose top-level enumeration fails. -/
def storeNoList : RemoteStore :=
  ⟨[⟨"A", .ok rmNil⟩], some "boom", fun _ => none⟩

/-- A two-row DataFrame with values in every column. -/
def dfW : RecordSet :=
  ⟨["a".toList, "b".toList], [[1, 2], [3, 4]],
   [[⟨"k".toList, "v".toList⟩], [⟨"k".toList, "w".toList⟩]],
   ["da".toList, "db".toList]⟩

/-- A fetched record mapping with two rows holding non-scalar values. -/
def rmW : RecordMap :=
  ⟨some ["x".toList, "x".toList], some [[3], [1, 2, 9]],
   some [[⟨"a".toList, "b".toList⟩, ⟨"a".toList, "c".toList⟩], []],
   some ["d1".toList, "d2".toList]⟩

/-! ## Helper lemmas about column maxima and emphasis masks -/

theorem le_foldl_max_init [LinearOrder α] (xs : List α) (x : α) : x ≤ xs.foldl max x := by
  induction xs generalizing x with
  | nil => exact le_refl x
  | cons y ys ih => exact le_trans (le_max_left x y) (ih (max x y))

theorem mem_le_foldl_max [LinearOrder α] {a : α} (xs : List α) (x : α) (h : a ∈ xs) :
    a ≤ xs.foldl max x := by
  induction xs generalizing x with
  | nil => cases h
  | cons y ys ih =>
    rcases List.mem_cons.mp h with h1 | h2
    · subst h1
      exact le_trans (le_max_right x a) (le_foldl_max_init ys (max x a))
    · exact ih (max x y) h2

theorem foldl_max_mem [LinearOrder α] (xs : List α) (x : α) :
    xs.foldl max x = x ∨ xs.foldl max x ∈ xs := by
  induction xs generalizing x with
  | nil => exact Or.inl rfl
  | cons y ys ih =>
    rw [List.foldl_cons]
    rcases ih (max x y) with h | h
    · rcases max_choice x y with hc | hc
      · exact Or.inl (by rw [h, hc])
      · exact Or.inr (by rw [h, hc]; exact List.mem_cons_self y ys)
    · exact Or.inr (List.mem_cons_of_mem y h)

theorem colMax_mem [LinearOrder α] {col : List α} {m : α} (h : colMax col = some m) :
    m ∈ col := by
  cases col with
  | nil => cases h
  | cons x xs =>
    have hm : xs.foldl max x = m := by
      simpa [colMax] using h
    rcases foldl_max_mem xs x with h1 | h1
    · rw [← hm, h1]
      exact List.mem_cons_self x xs
    · rw [← hm]
      exact List.mem_cons_of_mem x h1

theorem colMax_is_ub [LinearOrder α] {col : List α} {m : α} (h : colMax col = some m) :
    ∀ a ∈ col, a ≤ m := by
  cases col with
  | nil => cases h
  | cons x xs =>
    have hm : xs.foldl max x = m := by
      simpa [colMax] using h
    intro a ha
    rcases List.mem_cons.mp ha with h1 | h1
    · rw [← hm, h1]
      exact le_foldl_max_init xs x
    · rw [← hm]
      exact mem_le_foldl_max xs x h1

theorem highlight_max_length [LinearOrder α] [DecidableEq α] (col : List α) :
    (highlight_max col).length = col.length := by
  cases col with
  | nil => rfl
  | cons x xs => simp [highlight_max, colMax, List.length_map]

/-- The emphasis mask of `highlight_max` marks position `i` exactly when row
`i` holds a maximum of the column. -/
theorem highlight_max_getD_iff [LinearOrder α] [DecidableEq α] (col : List α)
    (i : Fin col.length) :
    ((highlight_max col).getD i.1 false = true) ↔
      ∀ j : Fin col.length, col.get j ≤ col.get i := by
  cases col with
  | nil => exact absurd i.2 (by simp)
  | cons x xs =>
    have hm : colMax (x :: xs) = some (xs.foldl max x) := rfl
    have hmem : xs.foldl max x ∈ x :: xs := colMax_mem hm
    have hub : ∀ a ∈ x :: xs, a ≤ xs.foldl max x := colMax_is_ub hm
    have hget : (highlight_max (x :: xs)).getD i.1 false
        = decide ((x :: xs).get i = xs.foldl max x) := by
      show ((x :: xs).map fun v => decide (v = xs.foldl max x)).getD i.1 false = _
      rw [List.getD_eq_get?, List.get?_map, List.get?_eq_get i.2]
      rfl
    rw [hget, decide_eq_true_iff]
    constructor
    · intro he j
      rw [he]
      exact hub _ (List.get_mem _ _ _)
    · intro hj
      rcases List.mem_iff_get.mp hmem with ⟨k, hk⟩
      exact le_antisymm (hub _ (List.get_mem _ _ _)) (hk ▸ hj k)

/-! ## Helper lemmas about the delete loop -/

theorem deleteLoop_ok {s s2 : RemoteStore} {cs : List Collection}
    (h : deleteLoop s cs = .ok s2) :
    s2.colls = cs.foldl (fun l c => l.eraseP (fun x => x.name == c.name)) s.colls ∧
    s2.listError = s.listError := by
  induction cs generalizing s with
  | nil =>
    have hs : s = s2 := by simpa [deleteLoop] using h
    subst hs
    exact ⟨rfl, rfl⟩
  | cons c rest ih =>
    have h2 : deleteLoop s (c :: rest) =
        match s.delete_collection c.name with
        | .error e => .error e
        | .ok s4 => deleteLoop s4 rest := rfl
    cases hde : s.deleteError c.name with
    | some e =>
      have h3 : s.delete_collection c.name = .error e := by
        simp [RemoteStore.delete_collection, hde]
      rw [h2, h3] at h
      exact absurd h (by simp)
    | none =>
      have h3 : s.delete_collection c.name
          = .ok { s with colls := s.colls.eraseP (fun x => x.name == c.name) } := by
        simp [RemoteStore.delete_collection, hde]
      rw [h2, h3] at h
      exact ih h

theorem foldl_eraseP_names_self (cs : List Collection) :
    cs.foldl (fun l c => l.eraseP (fun x => x.name == c.name)) cs = [] := by
  induction cs with
  | nil => rfl
  | cons c t ih =>
    rw [List.foldl_cons, List.eraseP_cons_of_pos (by simp)]
    exact ih

/-! ## Claims -/

/-- C1 counterexample: per-collection fault isolation fails on the code.
With three collections where the second collection's fetch raises, the first
collection is rendered but the third gets no rendered output at all: the
single `try` of line 72 wraps the whole loop, so the exception aborts the
iteration. -/
theorem C1_counterexample :
    (connect_and_list_collections storeCx).filter (fun o => isTableFor o "c1") ≠ [] ∧
    (connect_and_list_collections storeCx).filter (fun o => isTableFor o "c3") = [] := by
  exact ⟨by decide, by decide⟩

/-- C1 (amended): a fetch (or row-construction) failure of one collection is
caught by the per-action handler, not per collection: output already emitted
for earlier collections stays, a single aggregate error message is emitted
for the failure, and the collections after the failing one are not processed
at all (the loop behaves as if the failing collection were the last). -/
theorem C1_amended (pre : List Collection) (c : Collection) (post : List Collection)
    (e : String) (h : c.fetchResult = .error e) :
    listLoop (pre ++ c :: post) = listLoop (pre ++ [c]) ∧
    listLoop [c] = [.errorMsg ("Error listing collections: " ++ e)] := by
  constructor
  · induction pre with
    | nil => simp [listLoop, h]
    | cons p ps ih =>
      simp only [List.cons_append, listLoop]
      cases hp : p.fetchResult with
      | error e2 => rfl
      | ok rm =>
        cases hpc : presentCollection rm with
        | error e2 => simp [hpc]
        | ok t => simp [hpc, ih]
  · simp [listLoop, h]

/-- C1 witness: instantiating the amended claim at a failing collection. -/
theorem C1_witness :
    Collection.fetchResult ⟨"c2", .error "boom"⟩ = .error "boom" ∧
    listLoop [⟨"c2", .error "boom"⟩]
      = [.errorMsg ("Error listing collections: " ++ "boom")] :=
  ⟨rfl, (C1_amended [] ⟨"c2", .error "boom"⟩ [] "boom" rfl).2⟩

/-- C2 counterexample: endpoint resolution can raise to the caller.  For the
input `http://localhost:abc` the hostname is extractable but the port text
is not numeric, so reading `parsed_url.port` (line 121) raises `ValueError`,
which nothing in `view_chroma_db` catches — the connect branch aborts with
the exception instead of reporting Invalid as a value. -/
theorem C2_counterexample :
    connectBody "http://localhost:abc" storeCx
      = .error "Port could not be cast to integer value as \x27abc\x27" := by
  rfl

/-- C2 (amended): when parsing yields no hostname or no port at all, the
orchestrator reports the invalid-URL error as a value, with output
independent of the store (no network call); but when a port component is
present and non-numeric or out of range, resolution raises a `ValueError`
that propagates to the caller.  `http://localhost:9000` resolves to host
`localhost`, port `9000`; `not a url` and `http://localhost` are reported
Invalid. -/
theorem C2_amended :
    (∀ url store, endpointOf url = .ok none →
      connectBody url store = .ok [.errorMsg invalidURLMsg]) ∧
    (∀ url store e, endpointOf url = .error e → connectBody url store = .error e) ∧
    endpointOf "http://localhost:9000" = .ok (some ("localhost", 9000)) ∧
    endpointOf "not a url" = .ok none ∧
    endpointOf "http://localhost" = .ok none := by
  refine ⟨?_, ?_, by rfl, by rfl, by rfl⟩
  · intro url store h
    simp [connectBody, h]
  · intro url store e h
    simp [connectBody, h]

/-- C2 witness: the amended claim at a portless URL and at a URL whose port
text is not numeric. -/
theorem C2_witness :
    connectBody "http://localhost" storeCx = .ok [.errorMsg invalidURLMsg] ∧
    connectBody "http://localhost:abc" storeABC
      = .error "Port could not be cast to integer value as \x27abc\x27" :=
  ⟨C2_amended.1 "http://localhost" storeCx (by rfl),
   C2_amended.2.1 "http://localhost:abc" storeABC
     "Port could not be cast to integer value as \x27abc\x27" (by rfl)⟩

/-- C3 counterexample: in the connect-and-delete action an enumeration
failure is not converted to a user-visible message.  Lines 130-140 have no
exception handler, so the failure of `client.list_collections()` propagates
out of `view_chroma_db` as an exception and no `st.error` is produced. -/
theorem C3_counterexample :
    view_chroma_db false true "http://localhost:9000" storeNoList = .error "boom" := by
  rfl

/-- C3 (amended): the delete path catches no remote-call failure at all: for
every store whose enumeration fails and every URL that resolves to a host
and port, the failure propagates out of the delete branch and out of
`view_chroma_db` unchanged; no user-visible error message is produced (only
an invalid endpoint yields one). -/
theorem C3_amended (url hostStr : String) (p : Int) (store : RemoteStore) (e : String)
    (hurl : endpointOf url = .ok (some (hostStr, p)))
    (hlist : store.listError = some e) :
    deleteBody url store = .error e ∧
    view_chroma_db false true url store = .error e := by
  have hne : url ≠ "" := by
    intro h0
    rw [h0, show endpointOf "" = .ok none from rfl] at hurl
    simp at hurl
  have hdel : deleteBody url store = .error e := by
    simp [deleteBody, hurl, create_client, RemoteStore.list_collections, hlist]
  refine ⟨hdel, ?_⟩
  simp [view_chroma_db, hne, hdel]

/-- C3 witness: the amended claim at a concrete store whose enumeration
fails with message `boom`. -/
theorem C3_witness :
    deleteBody "http://localhost:9000" storeNoList = .error "boom" ∧
    view_chroma_db false true "http://localhost:9000" storeNoList = .error "boom" :=
  C3_amended "http://localhost:9000" "localhost" 9000 storeNoList "boom" (by rfl) (by rfl)

/-- C4: presenting a well-formed RecordSet with `n` aligned entries yields a
table with exactly the four columns ids, embeddings, metadata, documents,
`n` rows in every column and every emphasis mask, and in each column the
mask marks exactly the row(s) holding that column's maximum value; for
`n = 0` all columns and masks are empty and no error occurs. -/
theorem C4_present_shape (df : RecordSet) (n : Nat) (h : df.aligned n) :
    (style_dataframe df).colNames = ["ids", "embeddings", "metadata", "documents"] ∧
    (style_dataframe df).colNames.length = 4 ∧
    (style_dataframe df).ids.length = n ∧
    (style_dataframe df).embeddings.length = n ∧
    (style_dataframe df).metadata.length = n ∧
    (style_dataframe df).documents.length = n ∧
    (style_dataframe df).idsMask.length = n ∧
    (style_dataframe df).embeddingsMask.length = n ∧
    (style_dataframe df).metadataMask.length = n ∧
    (style_dataframe df).documentsMask.length = n ∧
    (∀ i : Fin df.ids.length,
      ((style_dataframe df).idsMask.getD i.1 false = true ↔
        ∀ j : Fin df.ids.length, df.ids.get j ≤ df.ids.get i)) ∧
    (∀ i : Fin df.embeddings.length,
      ((style_dataframe df).embeddingsMask.getD i.1 false = true ↔
        ∀ j : Fin df.embeddings.length, df.embeddings.get j ≤ df.embeddings.get i)) ∧
    (∀ i : Fin df.metadata.length,
      ((style_dataframe df).metadataMask.getD i.1 false = true ↔
        ∀ j : Fin df.metadata.length, df.metadata.get j ≤ df.metadata.get i)) ∧
    (∀ i : Fin df.documents.length,
      ((style_dataframe df).documentsMask.getD i.1 false = true ↔
        ∀ j : Fin df.documents.length, df.documents.get j ≤ df.documents.get i)) := by
  obtain ⟨h1, h2, h3, h4⟩ := h
  refine ⟨rfl, rfl, h1, h2, h3, h4, ?_, ?_, ?_, ?_,
    fun i => highlight_max_getD_iff df.ids i,
    fun i => highlight_max_getD_iff df.embeddings i,
    fun i => highlight_max_getD_iff df.metadata i,
    fun i => highlight_max_getD_iff df.documents i⟩
  · exact (highlight_max_length df.ids).trans h1
  · exact (highlight_max_length df.embeddings).trans h2
  · exact (highlight_max_length df.metadata).trans h3
  · exact (highlight_max_length df.documents).trans h4

/-- C4 witness: the shape theorem at a concrete two-row RecordSet. -/
theorem C4_witness :
    (style_dataframe dfW).ids.length = 2 ∧ (style_dataframe dfW).colNames.length = 4 :=
  ⟨(C4_present_shape dfW 2 ⟨rfl, rfl, rfl, rfl⟩).2.2.1,
   (C4_present_shape dfW 2 ⟨rfl, rfl, rfl, rfl⟩).2.1⟩

/-- C5: when the top-level enumeration call itself fails, the action emits
exactly one aggregate error message and halts: the output is the single
`st.error` of the `except` clause, with no table output at all. -/
theorem C5_enumeration_failure (store : RemoteStore) (e : String)
    (h : store.listError = some e) :
    connect_and_list_collections store
      = [.errorMsg ("Error listing collections: " ++ e)] ∧
    (connect_and_list_collections store).filter isTable = [] ∧
    ((connect_and_list_collections store).filter isError).length = 1 := by
  have hc : connect_and_list_collections store
      = [.errorMsg ("Error listing collections: " ++ e)] := by
    simp [connect_and_list_collections, RemoteStore.list_collections, h]
  refine ⟨hc, ?_, ?_⟩ <;> rw [hc] <;> rfl

/-- C5 witness: the aggregate-failure theorem at a concrete store whose
enumeration fails with message `boom`. -/
theorem C5_witness :
    connect_and_list_collections storeNoList
      = [.errorMsg ("Error listing collections: " ++ "boom")] :=
  (C5_enumeration_failure storeNoList "boom" rfl).1

/-- C6: if the connect-and-delete action runs on a URL that resolves to a
host and port and completes without error, every collection enumerated at
the start has been deleted: a subsequent enumeration of the resulting store
returns the empty sequence. -/
theorem C6_delete_completeness (url hostStr : String) (p : Int)
    (store st2 : RemoteStore) (outs : List StOutput)
    (hurl : endpointOf url = .ok (some (hostStr, p)))
    (h : deleteBody url store = .ok (st2, outs)) :
    st2.list_collections = .ok [] := by
  simp only [deleteBody, hurl, create_client] at h
  cases hl : store.listError with
  | some e =>
    have hle : store.list_collections = .error e := by
      simp [RemoteStore.list_collections, hl]
    rw [hle] at h
    simp at h
  | none =>
    have hle : store.list_collections = .ok store.colls := by
      simp [RemoteStore.list_collections, hl]
    simp only [hle] at h
    cases hdl : deleteLoop store store.colls with
    | error e =>
      simp only [hdl] at h
      exact absurd h (by simp)
    | ok s3 =>
      simp only [hdl] at h
      have hs : s3 = st2 := by
        have := h
        simp at this
        exact this.1
      subst hs
      have h6 := deleteLoop_ok hdl
      have h7 : s3.colls = [] := by
        rw [h6.1, foldl_eraseP_names_self]
      have h8 : s3.listError = none := h6.2.trans hl
      simp [RemoteStore.list_collections, h8, h7]

/-- C6 witness: deleting all of a three-collection store and enumerating
the result. -/
theorem C6_witness :
    deleteBody "http://localhost:9000" storeABC = .ok (⟨[], none, fun _ => none⟩, []) ∧
    RemoteStore.list_collections ⟨[], none, fun _ => none⟩ = .ok [] :=
  ⟨by rfl,
   C6_delete_completeness "http://localhost:9000" "localhost" 9000 storeABC
     ⟨[], none, fun _ => none⟩ [] (by rfl) (by rfl)⟩

/-- C7: presenting never fails on the values held in the non-scalar columns:
for every fetched record mapping whose four (defaulted) field sequences are
aligned, the build-and-style pipeline returns a rendered table, whatever the
embedding vectors, metadata mappings and document strings are. -/
theorem C7_present_total (rm : RecordMap) (n : Nat)
    (h : (rm.ids?.getD []).length = n ∧ (rm.embeddings?.getD []).length = n ∧
      (rm.metadatas?.getD []).length = n ∧ (rm.documents?.getD []).length = n) :
    presentCollection rm =
      .ok (style_dataframe ⟨rm.ids?.getD [], rm.embeddings?.getD [],
        rm.metadatas?.getD [], rm.documents?.getD []⟩) := by
  obtain ⟨h1, h2, h3, h4⟩ := h
  simp [presentCollection, mkDataFrame, h1, h2, h3, h4]

/-- C7 witness: the totality theorem at a concrete mapping holding duplicate
ids, unequal-length embedding vectors, multi-pair and empty metadata
mappings. -/
theorem C7_witness :
    presentCollection rmW =
      .ok (style_dataframe ⟨rmW.ids?.getD [], rmW.embeddings?.getD [],
        rmW.metadatas?.getD [], rmW.documents?.getD []⟩) :=
  C7_present_total rmW 2 ⟨rfl, rfl, rfl, rfl⟩

/-- C8 counterexample: a negative port is not treated as Invalid.  For
`http://localhost:-1` the `port` property raises `ValueError` (out of range
0-65535), so the connect branch aborts with the exception instead of
emitting the invalid-URL message. -/
theorem C8_counterexample :
    connectBody "http://localhost:-1" storeCx = .error "Port out of range 0-65535" := by
  rfl

/-- C8 (amended): a connection string with port 0 is treated as Invalid
(port 0 is numeric but falsy, so the invalid-URL error is reported and no
store call is made), but a negative port makes the `port` property raise
`ValueError`, so no connection attempt, yet also no Invalid message; in
general every port value the parser returns as a value lies in 0-65535. -/
theorem C8_amended :
    (∀ store, connectBody "http://localhost:0" store = .ok [.errorMsg invalidURLMsg]) ∧
    (∀ store, connectBody "http://localhost:-1" store = .error "Port out of range 0-65535") ∧
    (∀ (pr : ParseResult) (n : Int), pr.port = .ok (some n) → 0 ≤ n ∧ n ≤ 65535) := by
  refine ⟨fun store => by rfl, fun store => by rfl, ?_⟩
  intro pr n h
  cases hp : (hostinfoOf pr.netloc).2 with
  | none => simp [ParseResult.port, hp] at h
  | some s =>
    cases hi : pyIntOfChars s with
    | none => simp [ParseResult.port, hp, hi] at h
    | some m =>
      simp only [ParseResult.port, hp, hi] at h
      split at h
      · rename_i hr
        obtain rfl : m = n := by simpa using h
        exact hr
      · simp at h

/-- C8 witness: the amended claim at port 0 and at a concrete netloc with
port text `7`. -/
theorem C8_witness :
    connectBody "http://localhost:0" storeABC = .ok [.errorMsg invalidURLMsg] ∧
    (0 ≤ (7 : Int) ∧ (7 : Int) ≤ 65535) :=
  ⟨C8_amended.1 storeABC, C8_amended.2.2 ⟨"h:7".toList⟩ 7 (by rfl)⟩

/-- C9: with an empty connection-string field, both buttons do nothing:
Python truthiness of the empty string skips both branches, so the store is
untouched and no output — neither table, header nor error — is produced,
independently of which buttons were pressed and of the store. -/
theorem C9_empty_url_no_action (connectButton deleteButton : Bool) (store : RemoteStore) :
    view_chroma_db connectButton deleteButton "" store = .ok (store, []) := by
  simp [view_chroma_db]

/-- C10: a missing key among `ids`, `embeddings`, `metadatas`, `documents`
in the fetched mapping behaves exactly like a key mapped to the empty
sequence — `data.get(key, [])` substitutes `[]` — and row construction does
not fail on it: the mapping with all four keys absent renders as an empty
table. -/
theorem C10_missing_fields_default (rm : RecordMap) :
    presentCollection { rm with ids? := none }
      = presentCollection { rm with ids? := some [] } ∧
    presentCollection { rm with embeddings? := none }
      = presentCollection { rm with embeddings? := some [] } ∧
    presentCollection { rm with metadatas? := none }
      = presentCollection { rm with metadatas? := some [] } ∧
    presentCollection { rm with documents? := none }
      = presentCollection { rm with documents? := some [] } ∧
    presentCollection ⟨none, none, none, none⟩
      = .ok (style_dataframe ⟨[], [], [], []⟩) :=
  ⟨rfl, rfl, rfl, rfl, rfl⟩
